import Mathlib

/-!
Shallow embedding of the BloxFruit stock monitor (main.py): the change
detector, the notification builder, the webhook dispatcher, the endpoint
registry operations and the monitor loop body, together with theorems
settling the specification claims about them.
-/

set_option maxHeartbeats 1000000

namespace BloxFruit

/-- One stock item, as read from the upstream JSON. The code accesses the
keys name, usd_price and robux_price via dict.get with defaults; a `none`
field models an absent key. Prices are modelled as the strings interpolated
into the embed text. -/
structure Item where
  name : Option String
  usd_price : Option String
  robux_price : Option String
deriving DecidableEq, Repr

/-- One stock section of the snapshot (for example the value under the key
normal_stock). The code only reads its items key; `items = none` models a
section dict without that key. -/
structure StockSection where
  items : Option (List Item)
deriving DecidableEq, Repr

/-- The fetched snapshot: a dict in which the code reads the two keys
normal_stock and mirage_stock; `none` models an absent key. Top-level keys
other than these two are never read by the code and are not modelled. -/
structure StockData where
  normal_stock : Option StockSection
  mirage_stock : Option StockSection
deriving DecidableEq, Repr

/-- Python truthiness of the snapshot: `not data` is true for None and for
an empty dict; in the model both collapse to the snapshot with no sections. -/
def StockData.isEmpty (d : StockData) : Bool :=
  d.normal_stock.isNone && d.mirage_stock.isNone

/-- Canonical serialization of an optional string field (part of the model
of json.dumps with sort_keys=True). -/
def serializeOpt : Option String → String
  | some s => "S:" ++ s
  | none => "N"

/-- Canonical serialization of one item. -/
def serializeItem (it : Item) : String :=
  "item(" ++ serializeOpt it.name ++ "," ++ serializeOpt it.usd_price ++ ","
    ++ serializeOpt it.robux_price ++ ")"

/-- Canonical serialization of an optional section. -/
def serializeSection : Option StockSection → String
  | none => "absent"
  | some s =>
    match s.items with
    | none => "sec(noitems)"
    | some l => "sec(" ++ String.intercalate ";" (l.map serializeItem) ++ ")"

/-- Model of json.dumps(data, sort_keys=True): a deterministic canonical
serialization of the snapshot, keys in sorted order (mirage_stock before
normal_stock). -/
def canonicalSerialize (d : StockData) : String :=
  "mirage=" ++ serializeSection d.mirage_stock ++ ",normal="
    ++ serializeSection d.normal_stock

/-- get_data_hash: returns None for falsy data, otherwise the MD5 digest of
the canonical serialization. The MD5 digest is modelled as the canonical
serialization itself: the development relies only on the digest being a
deterministic function of the serialized content, never on its byte format. -/
def get_data_hash (data : StockData) : Option String :=
  if data.isEmpty then none else some (canonicalSerialize data)

/-- has_data_changed: the change detector. The global previous_data_hash is
passed in and the updated value is returned alongside the boolean result.
Mirrors main.py lines 35-48: with no prior fingerprint, store the current
hash and report changed; with a differing prior, store the new hash and
report changed; otherwise report unchanged. -/
def has_data_changed (data : StockData) (previous_data_hash : Option String) :
    Bool × Option String :=
  let current_hash := get_data_hash data
  match previous_data_hash with
  | none => (true, current_hash)
  | some p =>
    if current_hash ≠ some p then (true, current_hash)
    else (false, some p)

/-- Outcome of the outbound HTTP GET performed by the fetcher: a successful
response with a parsed body, a non-success status (raise_for_status raises
HTTPError, a RequestException), or a network/transport error
(RequestException). -/
inductive FetchOutcome where
  | success (body : StockData)
  | httpError (code : Nat)
  | transportError (message : String)
deriving DecidableEq, Repr

/-- get_bloxfruit_data: returns the parsed body on success and None on any
RequestException (non-success status or transport error), never letting the
exception escape. -/
def get_bloxfruit_data : FetchOutcome → Option StockData
  | .success body => some body
  | .httpError _ => none
  | .transportError _ => none

/-- One (label, value, display-hint) field of a Discord embed. -/
structure EmbedField where
  name : String
  value : String
  inline : Bool
deriving DecidableEq, Repr

/-- One Discord embed (a MessageGroup). The fallback embed carries no
fields key at all, hence `fields : Option`. -/
structure Embed where
  title : String
  description : String
  color : Nat
  timestamp : String
  footer_text : String
  footer_icon_url : String
  fields : Option (List EmbedField)
deriving DecidableEq, Repr

/-- The per-item field loop shared by both section embeds: label is the
icon plus the item name (default Unknown), value is the formatted price
pair with N/A for a missing price. -/
def itemFields (icon : String) (items : List Item) : List EmbedField :=
  items.map fun item =>
    { name := icon ++ " " ++ item.name.getD "Unknown"
      value := "💰 **USD:** $" ++ item.usd_price.getD "N/A"
        ++ "\n💎 **Robux:** " ++ item.robux_price.getD "N/A"
      inline := true }

/-- The Normal Stock embed built from main.py lines 61-84. `now` stands for
datetime.utcnow().isoformat(), passed in to keep the builder a function. -/
def normal_embed (now : String) (normal_items : List Item) : Embed :=
  { title := "🔹 Normal Stock Update"
    description := "📦 Có " ++ toString normal_items.length
      ++ " mặt hàng trong kho thường"
    color := 0x3498db
    timestamp := now
    footer_text := "BloxFruit Monitor • Normal Stock"
    footer_icon_url := "https://cdn.discordapp.com/emojis/123456789.png"
    fields := some (itemFields "🍇" normal_items) }

/-- The Mirage Stock embed built from main.py lines 90-113. -/
def mirage_embed (now : String) (mirage_items : List Item) : Embed :=
  { title := "✨ Mirage Stock Update"
    description := "🌟 Có " ++ toString mirage_items.length
      ++ " mặt hàng hiếm trong kho đặc biệt"
    color := 0xe74c3c
    timestamp := now
    footer_text := "BloxFruit Monitor • Mirage Stock"
    footer_icon_url := "https://cdn.discordapp.com/emojis/123456789.png"
    fields := some (itemFields "⭐" mirage_items) }

/-- The fallback embed of main.py lines 117-126, sent when no stock data
was found; it has no fields key. -/
def fallback_embed (now : String) : Embed :=
  { title := "🍎 BloxFruit Stock Update"
    description := "🔄 Stock đã được cập nhật nhưng không có dữ liệu mới"
    color := 0x95a5a6
    timestamp := now
    footer_text := "BloxFruit Monitor Bot"
    footer_icon_url := "https://cdn.discordapp.com/emojis/123456789.png"
    fields := none }

/-- The embed-building part of send_discord_webhook (main.py lines 55-126):
one embed per section whose items key is present (the code tests key
presence, not list emptiness), in normal-then-mirage order, and the single
fallback embed when neither section contributed. -/
def buildEmbeds (now : String) (data : StockData) : List Embed :=
  let embeds : List Embed := []
  let embeds :=
    match data.normal_stock with
    | some sec =>
      match sec.items with
      | some normal_items => embeds ++ [normal_embed now normal_items]
      | none => embeds
    | none => embeds
  let embeds :=
    match data.mirage_stock with
    | some sec =>
      match sec.items with
      | some mirage_items => embeds ++ [mirage_embed now mirage_items]
      | none => embeds
    | none => embeds
  if embeds.isEmpty then [fallback_embed now] else embeds

/-- The items key of an optional section, when both are present. -/
def section_items : Option StockSection → Option (List Item)
  | none => none
  | some s => s.items

/-- Number of recognized sections of the snapshot whose items key is
present (the condition under which the code emits a section embed). -/
def sections_with_items (d : StockData) : Nat :=
  (if (section_items d.normal_stock).isSome then 1 else 0)
    + (if (section_items d.mirage_stock).isSome then 1 else 0)

/-- Observable outcome of one send_discord_webhook call: the returned
boolean, the final success_count, and the list of webhook URLs to which a
POST was attempted, in iteration order. -/
structure DispatchResult where
  result : Bool
  success_count : Nat
  attempted : List String
deriving DecidableEq, Repr

/-- The delivery loop of main.py lines 138-149: one POST per URL; a raised
RequestException is caught and only skips the increment, never the rest of
the loop. `deliver` is the network oracle: whether the POST to a given URL
succeeds. -/
def deliveries (deliver : String → Bool) : List String → Nat
  | [] => 0
  | u :: rest => (if deliver u then 1 else 0) + deliveries deliver rest

/-- send_discord_webhook (main.py lines 50-152): returns False immediately
when the data or the URL set is falsy (no POST attempted); otherwise builds
the embed payload once, attempts one POST per registered URL and returns
whether success_count > 0. -/
def send_discord_webhook (deliver : String → Bool) (now : String)
    (data : StockData) (webhook_urls : List String) : DispatchResult :=
  if data.isEmpty || webhook_urls.isEmpty then
    { result := false, success_count := 0, attempted := [] }
  else
    let _embeds := buildEmbeds now data
    let success_count := deliveries deliver webhook_urls
    { result := decide (0 < success_count)
      success_count := success_count
      attempted := webhook_urls }

/-- An HTTPException raised at the request boundary: status code and detail. -/
structure HTTPError where
  status_code : Nat
  detail : String
deriving DecidableEq, Repr

/-- The process-wide mutable globals of main.py lines 14-16:
previous_data_hash, monitoring_active, and the webhook_urls set. The set is
modelled as a duplicate-free list in iteration order. -/
structure MonitorState where
  previous_data_hash : Option String
  monitoring_active : Bool
  webhook_urls : List String
deriving DecidableEq, Repr

/-- JSON body returned by the add-webhook endpoint (check_interval field
is the constant "30 seconds" and is omitted). -/
structure AddResponse where
  message : String
  webhook_added : String
  total_webhooks : Nat
deriving DecidableEq, Repr

/-- JSON body returned by the remove-webhook endpoint. -/
structure RemoveResponse where
  message : String
  webhook_removed : String
  remaining_webhooks : Nat
deriving DecidableEq, Repr

/-- Whether the character list `p` starts the character list `l`. -/
def listStartsWith : List Char → List Char → Bool
  | [], _ => true
  | _ :: _, [] => false
  | a :: as, b :: bs => if a = b then listStartsWith as bs else false

/-- Model of webhook.startswith("https://discord.com/api/webhooks/"), the
URL-shape validation of the add endpoint. -/
def discordWebhookShape (w : String) : Bool :=
  listStartsWith "https://discord.com/api/webhooks/".toList w.toList

/-- Python set.add on the list model: append only when absent. -/
def setAdd (urls : List String) (w : String) : List String :=
  if w ∈ urls then urls else urls ++ [w]

/-- add_webhook_and_start_monitoring (main.py lines 211-241): reject an
empty or malformed URL with a 400, otherwise add the URL to the set and
answer with a message chosen only by the monitoring_active flag (when
inactive, the background monitor task is also scheduled; the flag itself is
set by monitor_task when it runs, so it is unchanged here). Returns the
boundary result and the updated globals. -/
def add_webhook_and_start_monitoring (webhook : String) (st : MonitorState) :
    Except HTTPError AddResponse × MonitorState :=
  if webhook = "" then
    (.error { status_code := 400, detail := "Webhook URL is required" }, st)
  else if ! discordWebhookShape webhook then
    (.error { status_code := 400, detail := "Invalid Discord webhook URL" }, st)
  else
    let urls := setAdd st.webhook_urls webhook
    let message :=
      if ! st.monitoring_active then "🚀 BloxFruit stock monitoring started!"
      else "✅ Webhook added to existing monitoring"
    (.ok { message := message, webhook_added := webhook,
           total_webhooks := urls.length },
     { st with webhook_urls := urls })

/-- remove_webhook (main.py lines 270-289): reject an empty URL with a 400;
remove a present URL and answer with the remaining count; answer 404 for an
absent URL, touching nothing. -/
def remove_webhook (webhook : String) (st : MonitorState) :
    Except HTTPError RemoveResponse × MonitorState :=
  if webhook = "" then
    (.error { status_code := 400, detail := "Webhook URL is required" }, st)
  else if webhook ∈ st.webhook_urls then
    let urls := st.webhook_urls.erase webhook
    (.ok { message := "✅ Webhook removed successfully",
           webhook_removed := webhook, remaining_webhooks := urls.length },
     { st with webhook_urls := urls })
  else
    (.error { status_code := 404, detail := "Webhook not found" }, st)

/-- One iteration of the while body of monitor_task (main.py lines 164-190),
parameterized by the fetch result of this tick and the delivery oracle: a
failed fetch (None) or a falsy snapshot only logs; otherwise the change
detector runs (updating previous_data_hash) and, on a change, the webhooks
are notified. Nothing in the body touches monitoring_active or the
registry. -/
def monitor_tick (deliver : String → Bool) (now : String)
    (fetched : Option StockData) (st : MonitorState) : MonitorState :=
  match fetched with
  | none => st
  | some data =>
    if data.isEmpty then st
    else
      let r := has_data_changed data st.previous_data_hash
      if r.1 then
        let _success := send_discord_webhook deliver now data st.webhook_urls
        { st with previous_data_hash := r.2 }
      else
        { st with previous_data_hash := r.2 }

/-- The while condition of monitor_task: the loop keeps ticking iff
monitoring_active, regardless of the registry contents. -/
def loop_should_continue (st : MonitorState) : Bool :=
  st.monitoring_active

/-! ## Helper lemmas -/

/-- The delivery loop's success_count is the number of URLs the oracle
delivers to. -/
lemma deliveries_eq_filter (deliver : String → Bool) (l : List String) :
    deliveries deliver l = (l.filter deliver).length := by
  induction l with
  | nil => rfl
  | cons u rest ih =>
    by_cases hu : deliver u
    · simp [deliveries, List.filter_cons, hu, ih]
      omega
    · simp [deliveries, List.filter_cons, hu, ih]

/-- success_count is positive iff some attempted URL was delivered to. -/
lemma deliveries_pos_iff (deliver : String → Bool) (l : List String) :
    0 < deliveries deliver l ↔ ∃ u ∈ l, deliver u = true := by
  induction l with
  | nil => simp [deliveries]
  | cons u rest ih =>
    by_cases hu : deliver u
    · simp [deliveries, hu]
    · simp [deliveries, hu, ih]

/-- Splitting a list's length by a boolean predicate. -/
lemma length_filter_add_length_filter_not (p : String → Bool) (l : List String) :
    (l.filter p).length + (l.filter (fun x => ! p x)).length = l.length := by
  induction l with
  | nil => rfl
  | cons u rest ih =>
    by_cases hu : p u <;> simp [List.filter_cons, hu] <;> omega

/-! ## Claim theorems -/

/-- C2 counterexample: the change detector on an empty snapshot reports
changed (not "no change"); with a stored prior fingerprint it moreover
clears the stored fingerprint to absent instead of leaving it unchanged. -/
theorem c2_counterexample :
    (has_data_changed { normal_stock := none, mirage_stock := none } (some "h")).1 = true
    ∧ (has_data_changed { normal_stock := none, mirage_stock := none } (some "h")).2 = none
    ∧ (has_data_changed { normal_stock := none, mirage_stock := none } none).1 = true :=
  ⟨rfl, rfl, rfl⟩

/-- C2 (amended): for every absent/empty snapshot the change detector
reports CHANGED, and the stored fingerprint afterwards is absent — so the
state is untouched only when no prior fingerprint existed, and a stored
prior fingerprint is overwritten to absent. -/
theorem c2_empty_snapshot_reports_changed (data : StockData)
    (prev : Option String) (h : data.isEmpty = true) :
    (has_data_changed data prev).1 = true
    ∧ (has_data_changed data prev).2 = none := by
  have hh : get_data_hash data = none := by simp [get_data_hash, h]
  cases prev with
  | none => simp [has_data_changed, hh]
  | some p => simp [has_data_changed, hh]

/-- C2 witness: the amended statement at the empty snapshot with a stored
prior fingerprint. -/
theorem c2_empty_snapshot_reports_changed_witness :
    (has_data_changed { normal_stock := none, mirage_stock := none } (some "x")).1 = true
    ∧ (has_data_changed { normal_stock := none, mirage_stock := none } (some "x")).2 = none :=
  c2_empty_snapshot_reports_changed { normal_stock := none, mirage_stock := none }
    (some "x") rfl

/-- C5: on a non-empty snapshot, the first-ever call (no stored
fingerprint) reports changed and stores the snapshot's fingerprint; a
second call on the same content reports unchanged and leaves the stored
fingerprint untouched. -/
theorem c5_bootstrap_then_unchanged (data : StockData) (h : data.isEmpty = false) :
    has_data_changed data none = (true, some (canonicalSerialize data))
    ∧ has_data_changed data (some (canonicalSerialize data))
        = (false, some (canonicalSerialize data)) := by
  have hh : get_data_hash data = some (canonicalSerialize data) := by
    simp [get_data_hash, h]
  constructor
  · simp [has_data_changed, hh]
  · simp [has_data_changed, hh]

/-- C5 witness: the bootstrap-then-unchanged behavior at a concrete
one-section snapshot. -/
theorem c5_bootstrap_then_unchanged_witness :
    has_data_changed { normal_stock := some { items := some [] }, mirage_stock := none } none
      = (true, some (canonicalSerialize
          { normal_stock := some { items := some [] }, mirage_stock := none }))
    ∧ has_data_changed { normal_stock := some { items := some [] }, mirage_stock := none }
        (some (canonicalSerialize
          { normal_stock := some { items := some [] }, mirage_stock := none }))
      = (false, some (canonicalSerialize
          { normal_stock := some { items := some [] }, mirage_stock := none })) :=
  c5_bootstrap_then_unchanged
    { normal_stock := some { items := some [] }, mirage_stock := none } rfl

/-- C6: a fetch that fails (non-success response or transport error)
returns the None failure signal instead of raising, and the monitor tick on
such a cycle leaves the whole monitor state — previous_data_hash included —
unchanged. -/
theorem c6_fetch_failure_preserves_state (code : Nat) (msg : String)
    (deliver : String → Bool) (now : String) (st : MonitorState) :
    get_bloxfruit_data (FetchOutcome.httpError code) = none
    ∧ get_bloxfruit_data (FetchOutcome.transportError msg) = none
    ∧ monitor_tick deliver now (get_bloxfruit_data (FetchOutcome.httpError code)) st = st
    ∧ monitor_tick deliver now (get_bloxfruit_data (FetchOutcome.transportError msg)) st = st :=
  ⟨rfl, rfl, rfl, rfl⟩

/-- C3: the dispatcher returns overall success iff the delivery of at least
one attempted destination succeeded; in particular an empty destination set
always yields failure. -/
theorem c3_overall_success_iff (deliver : String → Bool) (now : String)
    (data : StockData) (urls : List String) :
    ((send_discord_webhook deliver now data urls).result = true ↔
      ∃ u ∈ (send_discord_webhook deliver now data urls).attempted, deliver u = true)
    ∧ (urls = [] → (send_discord_webhook deliver now data urls).result = false) := by
  constructor
  · by_cases hc : (data.isEmpty || urls.isEmpty) = true
    · simp [send_discord_webhook, hc]
    · simp only [Bool.not_eq_true] at hc
      simp [send_discord_webhook, hc, deliveries_pos_iff]
  · intro h
    subst h
    by_cases hd : data.isEmpty <;> simp [send_discord_webhook, hd]

/-- C3 witness: overall failure on the empty destination set, and the
success-iff equivalence, at a concrete populated snapshot. -/
theorem c3_overall_success_iff_witness :
    (send_discord_webhook (fun _ => true) "t"
      { normal_stock := some { items := some [] }, mirage_stock := none } []).result
      = false :=
  (c3_overall_success_iff (fun _ => true) "t"
    { normal_stock := some { items := some [] }, mirage_stock := none } []).2 rfl

/-- C4: with a non-empty payload and a non-empty destination set, the
dispatcher attempts each registered destination exactly once (independently
of which deliveries fail), its success_count counts exactly the successful
attempts, and with 3 destinations of which exactly one fails it reports
overall success with 2 successes. -/
theorem c4_dispatch_per_destination (deliver : String → Bool) (now : String)
    (data : StockData) (urls : List String)
    (hd : data.isEmpty = false) (hu : urls ≠ []) :
    (send_discord_webhook deliver now data urls).attempted = urls
    ∧ (send_discord_webhook deliver now data urls).success_count
        = (urls.filter deliver).length
    ∧ (send_discord_webhook deliver now data urls).result
        = decide (0 < (urls.filter deliver).length)
    ∧ (urls.Nodup → ∀ u ∈ urls,
        ((send_discord_webhook deliver now data urls).attempted).count u = 1)
    ∧ (urls.length = 3 → (urls.filter (fun u => ! deliver u)).length = 1 →
        (send_discord_webhook deliver now data urls).result = true
        ∧ (send_discord_webhook deliver now data urls).success_count = 2) := by
  have hue : urls.isEmpty = false := by
    cases urls with
    | nil => exact absurd rfl hu
    | cons a l => rfl
  have hc : (data.isEmpty || urls.isEmpty) = false := by simp [hd, hue]
  have h2 : ∀ (h3 : urls.length = 3),
      (urls.filter (fun u => ! deliver u)).length = 1 →
      (urls.filter deliver).length = 2 := by
    intro h3 h1
    have := length_filter_add_length_filter_not deliver urls
    omega
  refine ⟨?_, ?_, ?_, ?_, ?_⟩
  · simp [send_discord_webhook, hc]
  · simp [send_discord_webhook, hc, deliveries_eq_filter]
  · simp [send_discord_webhook, hc, deliveries_eq_filter]
  · intro hnd u hm
    simp only [send_discord_webhook, hc]
    simpa using List.count_eq_one_of_mem hnd hm
  · intro h3 h1
    have hs := h2 h3 h1
    constructor
    · simp [send_discord_webhook, hc, deliveries_eq_filter, hs]
    · simp [send_discord_webhook, hc, deliveries_eq_filter, hs]

/-- C4 witness: three destinations of which exactly the second fails yield
overall success with success_count 2. -/
theorem c4_dispatch_per_destination_witness :
    (send_discord_webhook (fun u => decide (u ≠ "b")) "t"
      { normal_stock := some { items := some [] }, mirage_stock := none }
      ["a", "b", "c"]).result = true
    ∧ (send_discord_webhook (fun u => decide (u ≠ "b")) "t"
        { normal_stock := some { items := some [] }, mirage_stock := none }
        ["a", "b", "c"]).success_count = 2 :=
  (c4_dispatch_per_destination (fun u => decide (u ≠ "b")) "t"
    { normal_stock := some { items := some [] }, mirage_stock := none }
    ["a", "b", "c"] rfl (by decide)).2.2.2.2 rfl (by decide)

/-- C9: with registered destinations but a falsy (absent/empty) payload,
the dispatcher returns failure immediately and attempts no delivery at all. -/
theorem c9_empty_payload_no_attempts (deliver : String → Bool) (now : String)
    (data : StockData) (urls : List String)
    (hd : data.isEmpty = true) (_hu : urls ≠ []) :
    send_discord_webhook deliver now data urls
      = { result := false, success_count := 0, attempted := [] } := by
  simp [send_discord_webhook, hd]

/-- C9 witness: the empty snapshot with one registered destination yields
failure with zero attempts. -/
theorem c9_empty_payload_no_attempts_witness :
    send_discord_webhook (fun _ => true) "t"
      { normal_stock := none, mirage_stock := none } ["a"]
      = { result := false, success_count := 0, attempted := [] } :=
  c9_empty_payload_no_attempts (fun _ => true) "t"
    { normal_stock := none, mirage_stock := none } ["a"] rfl (by decide)

/-- C1 counterexample: a snapshot whose normal section is present with an
EMPTY item list and whose mirage section holds 2 items yields TWO message
groups (the code emits a section embed whenever the items key is present,
empty or not), not the single group the claim states. -/
theorem c1_counterexample :
    (buildEmbeds "2024-01-01T00:00:00"
      { normal_stock := some { items := some [] },
        mirage_stock := some { items := some [
          { name := some "Dragon", usd_price := some "3.99",
             robux_price := some "2600" },
           { name := some "Leopard", usd_price := none,
             robux_price := some "5000" }] } }).length = 2
    ∧ ¬ (buildEmbeds "2024-01-01T00:00:00"
      { normal_stock := some { items := some [] },
        mirage_stock := some { items := some [
          { name := some "Dragon", usd_price := some "3.99",
             robux_price := some "2600" },
           { name := some "Leopard", usd_price := none,
             robux_price := some "5000" }] } }).length = 1 :=
  ⟨rfl, by decide⟩

/-- C1 (amended): the builder emits one message group per recognized
section whose items key is present — including an EMPTY item list — with
one display field per item; so the empty-normal/2-item-mirage snapshot
yields exactly two groups, with 0 and 2 fields; and it emits exactly one
fallback group iff no recognized section carries an items key (in
particular for an entirely empty snapshot). -/
theorem c1_section_groups (now : String) (data : StockData) (mitems : List Item) :
    ((buildEmbeds now data).length
        = if sections_with_items data = 0 then 1 else sections_with_items data)
    ∧ (sections_with_items data = 0 → buildEmbeds now data = [fallback_embed now])
    ∧ (∀ items, section_items data.normal_stock = some items →
          normal_embed now items ∈ buildEmbeds now data
          ∧ (normal_embed now items).fields = some (itemFields "🍇" items))
    ∧ (∀ items, section_items data.mirage_stock = some items →
          mirage_embed now items ∈ buildEmbeds now data
          ∧ (mirage_embed now items).fields = some (itemFields "⭐" items))
    ∧ ((buildEmbeds now
          { normal_stock := some { items := some [] },
            mirage_stock := some { items := some mitems } }).map
            (fun e => (e.fields.getD []).length) = [0, mitems.length]) := by
  obtain ⟨ns, ms⟩ := data
  rcases ns with _ | ⟨_ | nl⟩ <;> rcases ms with _ | ⟨_ | ml⟩ <;>
    simp [buildEmbeds, sections_with_items, section_items, normal_embed,
      mirage_embed, fallback_embed, itemFields]

/-- C1 witness: the entirely empty snapshot yields exactly the single
fallback message group. -/
theorem c1_section_groups_witness :
    buildEmbeds "t" { normal_stock := none, mirage_stock := none }
      = [fallback_embed "t"] :=
  (c1_section_groups "t" { normal_stock := none, mirage_stock := none } []).2.1 rfl

/-- C7 counterexample: with monitoring active, registering an
already-present webhook answers with the very same "Webhook added to
existing monitoring" message that a genuinely new registration gets — the
response never reports "already present" (the message depends only on the
monitoring flag), even though the count indeed stays unchanged at 1. -/
theorem c7_counterexample :
    (add_webhook_and_start_monitoring "https://discord.com/api/webhooks/1/a"
      { previous_data_hash := none, monitoring_active := true,
        webhook_urls := ["https://discord.com/api/webhooks/1/a"] }).1
      = Except.ok { message := "✅ Webhook added to existing monitoring",
                    webhook_added := "https://discord.com/api/webhooks/1/a",
                    total_webhooks := 1 }
    ∧ (add_webhook_and_start_monitoring "https://discord.com/api/webhooks/2/b"
        { previous_data_hash := none, monitoring_active := true,
          webhook_urls := ["https://discord.com/api/webhooks/1/a"] }).1
      = Except.ok { message := "✅ Webhook added to existing monitoring",
                    webhook_added := "https://discord.com/api/webhooks/2/b",
                    total_webhooks := 2 } :=
  ⟨rfl, rfl⟩

/-- C7 (amended): registering an already-present identifier succeeds and
leaves the registry contents — hence the count — unchanged (add is
idempotent), but the response does not report "already present": its
message is chosen solely by the monitoring flag, identically to a
first-time registration. -/
theorem c7_duplicate_add_idempotent (webhook : String) (st : MonitorState)
    (hshape : discordWebhookShape webhook = true)
    (hmem : webhook ∈ st.webhook_urls) :
    add_webhook_and_start_monitoring webhook st
      = (Except.ok { message := if ! st.monitoring_active
                      then "🚀 BloxFruit stock monitoring started!"
                      else "✅ Webhook added to existing monitoring",
                     webhook_added := webhook,
                     total_webhooks := st.webhook_urls.length }, st) := by
  have hne : webhook ≠ "" := by
    intro h
    subst h
    exact absurd hshape (by decide)
  simp [add_webhook_and_start_monitoring, hne, hshape, setAdd, hmem]

/-- C7 witness: the duplicate registration at a concrete one-element
registry with monitoring active. -/
theorem c7_duplicate_add_idempotent_witness :
    add_webhook_and_start_monitoring "https://discord.com/api/webhooks/1/a"
      { previous_data_hash := none, monitoring_active := true,
        webhook_urls := ["https://discord.com/api/webhooks/1/a"] }
      = (Except.ok { message := if ! true
                      then "🚀 BloxFruit stock monitoring started!"
                      else "✅ Webhook added to existing monitoring",
                     webhook_added := "https://discord.com/api/webhooks/1/a",
                     total_webhooks := 1 },
         { previous_data_hash := none, monitoring_active := true,
           webhook_urls := ["https://discord.com/api/webhooks/1/a"] }) :=
  c7_duplicate_add_idempotent "https://discord.com/api/webhooks/1/a"
    { previous_data_hash := none, monitoring_active := true,
      webhook_urls := ["https://discord.com/api/webhooks/1/a"] }
    (by decide) (by decide)

/-- C8: removing a destination identifier that is not in the registry (and
is non-empty — an empty identifier is rejected earlier as a 400 validation
failure) answers with the 404 not-found failure and leaves the whole state,
registry contents and count included, unchanged. -/
theorem c8_remove_unregistered_not_found (webhook : String) (st : MonitorState)
    (hne : webhook ≠ "") (hmem : webhook ∉ st.webhook_urls) :
    remove_webhook webhook st
      = (Except.error { status_code := 404, detail := "Webhook not found" }, st) := by
  simp [remove_webhook, hne, hmem]

/-- C8 witness: removing a never-registered URL from a one-element registry. -/
theorem c8_remove_unregistered_not_found_witness :
    remove_webhook "https://discord.com/api/webhooks/9/z"
      { previous_data_hash := none, monitoring_active := true,
        webhook_urls := ["https://discord.com/api/webhooks/1/a"] }
      = (Except.error { status_code := 404, detail := "Webhook not found" },
         { previous_data_hash := none, monitoring_active := true,
           webhook_urls := ["https://discord.com/api/webhooks/1/a"] }) :=
  c8_remove_unregistered_not_found "https://discord.com/api/webhooks/9/z"
    { previous_data_hash := none, monitoring_active := true,
      webhook_urls := ["https://discord.com/api/webhooks/1/a"] }
    (by decide) (by decide)

/-- C10: the remove operation never touches the monitoring flag or the
stored fingerprint; with monitoring active the loop condition still holds
after any removal, and removing the last remaining (non-empty) destination
leaves the loop ticking against an empty registry. -/
theorem c10_remove_keeps_loop_active (webhook : String) (st : MonitorState) :
    ((remove_webhook webhook st).2).monitoring_active = st.monitoring_active
    ∧ ((remove_webhook webhook st).2).previous_data_hash = st.previous_data_hash
    ∧ (st.monitoring_active = true →
        loop_should_continue (remove_webhook webhook st).2 = true)
    ∧ (webhook ≠ "" → st.webhook_urls = [webhook] →
        ((remove_webhook webhook st).2).webhook_urls = []) := by
  by_cases h1 : webhook = ""
  · subst h1
    refine ⟨?_, ?_, ?_, ?_⟩
    · simp [remove_webhook]
    · simp [remove_webhook]
    · intro h; simpa [remove_webhook, loop_should_continue] using h
    · intro h; exact absurd rfl h
  · by_cases h2 : webhook ∈ st.webhook_urls
    · refine ⟨?_, ?_, ?_, ?_⟩
      · simp [remove_webhook, h1, h2]
      · simp [remove_webhook, h1, h2]
      · intro h; simpa [remove_webhook, h1, h2, loop_should_continue] using h
      · intro _ hlast
        simp [remove_webhook, h1, h2, hlast, List.erase_cons_head]
    · refine ⟨?_, ?_, ?_, ?_⟩
      · simp [remove_webhook, h1, h2]
      · simp [remove_webhook, h1, h2]
      · intro h; simpa [remove_webhook, h1, h2, loop_should_continue] using h
      · intro _ hlast
        exact absurd (hlast ▸ List.mem_singleton_self webhook) h2

/-- C10 witness: removing the single registered URL while monitoring is
active keeps the loop condition true over the now-empty registry. -/
theorem c10_remove_keeps_loop_active_witness :
    loop_should_continue
      (remove_webhook "https://discord.com/api/webhooks/1/a"
        { previous_data_hash := none, monitoring_active := true,
          webhook_urls := ["https://discord.com/api/webhooks/1/a"] }).2 = true
    ∧ ((remove_webhook "https://discord.com/api/webhooks/1/a"
        { previous_data_hash := none, monitoring_active := true,
          webhook_urls := ["https://discord.com/api/webhooks/1/a"] }).2).webhook_urls
        = [] :=
  ⟨(c10_remove_keeps_loop_active "https://discord.com/api/webhooks/1/a"
      { previous_data_hash := none, monitoring_active := true,
        webhook_urls := ["https://discord.com/api/webhooks/1/a"] }).2.2.1 rfl,
   (c10_remove_keeps_loop_active "https://discord.com/api/webhooks/1/a"
      { previous_data_hash := none, monitoring_active := true,
        webhook_urls := ["https://discord.com/api/webhooks/1/a"] }).2.2.2
      (by decide) rfl⟩

end BloxFruit
